import Mathlib

/-!
Verification of the orchestration core of the serverless instrumentation
plugin (`src/index.ts`): the lifecycle dispatcher, the two pipeline phases,
tracing-mode derivation, tag injection, runtime classification defaults and
the diagnostics for unsupported runtimes.

The TypeScript source is shallowly embedded: pure computations become Lean
functions; the imperative phases become functions from a `Service` state to a
new state paired with a trace of the external-collaborator calls they make
(`Event`s), in the order the source makes them.  Collaborators that live in
modules outside the given source file (`layer.ts`, `env.ts`, `tracing.ts`,
`wrapper.ts`, `forwarder.ts`) are represented by trace events, and — where a
property needs their data-level behaviour — by definitions modelled from the
specification, each marked as such in its doc comment.
-/

namespace ServerlessPlugin

/-- Tracing modes, from `templates/common.ts` as referenced by `index.ts`
(`TracingMode.NONE / DD_TRACE / XRAY / HYBRID`).  The spec calls `DD_TRACE`
"VENDOR_TRACE". -/
inductive TracingMode where
  | NONE
  | DD_TRACE
  | XRAY
  | HYBRID
deriving DecidableEq, Repr

/-- Runtime classification, from `layer.ts` as referenced by `index.ts`
(`RuntimeType.NODE / NODE_TS / NODE_ES6 / UNSUPPORTED`; the plugin's other
supported managed family is Python). -/
inductive RuntimeType where
  | NODE
  | NODE_TS
  | NODE_ES6
  | PYTHON
  | UNSUPPORTED
deriving DecidableEq, Repr

/-- The `nodeModuleType` configuration value: `"es6" | "node" | "typescript"
| undefined` (the `Option` wrapper plays the role of `undefined`). -/
inductive NodeModuleType where
  | es6
  | node
  | typescript
deriving DecidableEq, Repr

/-- The flat resolved configuration produced by `getConfig` (`env.ts`,
external): the fields `index.ts` reads. -/
structure ResolvedConfig where
  addLayers : Bool
  enableXrayTracing : Bool
  enableDDTracing : Bool
  enableTags : Bool
  forwarder : Option String
  nodeModuleType : Option NodeModuleType
deriving DecidableEq, Repr

/-- Tag maps (`tags?: \x7b [key: string]: string \x7d`) are embedded as
association lists; a JavaScript object has unique keys, so reading takes the
first matching entry. -/
def lookupTag : List (String × String) → String → Option String
  | [], _ => none
  | p :: ps, k => if p.1 = k then some p.2 else lookupTag ps k

/-- JavaScript property assignment `tags[k] = v`: replace the (first) entry
for `k`, or append a new entry. -/
def setTag : List (String × String) → String → String → List (String × String)
  | [], k, v => [(k, v)]
  | p :: ps, k, v => if p.1 = k then (k, v) :: ps else p :: setTag ps k v

/-- JavaScript truthiness of `tags[k]`, as tested by `if (!tags[k])`:
a missing key and the empty string are both falsy. -/
def tagTruthy (tags : List (String × String)) (k : String) : Bool :=
  match lookupTag tags k with
  | some v => v != ""
  | none => false

/-- The `TagKeys` enum of `index.ts`: `Service = "service"`. -/
def TagKeys.Service : String := "service"

/-- The `TagKeys` enum of `index.ts`: `Env = "env"`. -/
def TagKeys.Env : String := "env"

/-- `ExtendedFunctionDefinition` of `index.ts`: a function definition with
its optional tag map, plus the fields the pipeline reads (`runtime`,
`handler`, `name`) and the attached layer references (held in `layers` on the
real definition; a reference is keyed by region and runtime, per the layer
lookup contract). -/
structure ExtendedFunctionDefinition where
  name : String
  handler : String
  runtime : Option String
  tags : Option (List (String × String))
  layers : List (Option String × RuntimeType)
deriving DecidableEq, Repr

/-- The read-only projection `FunctionInfo` produced by handler discovery
(`layer.ts`): name, classification, handler path, and the runtime string
retained for diagnostics. -/
structure FunctionInfo where
  name : String
  type : RuntimeType
  handler : String
  runtime : Option String
deriving DecidableEq, Repr

/-- The slice of the `serverless.service` object the embedded code touches:
the function definitions, the provider-level defaults, the stage reported by
the AWS provider, the webpack-plugin detection result (`hasWebpackPlugin`,
`util.ts`), and whether the instrumentation dependency has been forced out of
the webpack bundle (`forceExcludeDepsFromWebpack`, `env.ts`). -/
structure Service where
  serviceName : String
  providerRuntime : Option String
  providerRegion : Option String
  stage : String
  hasWebpack : Bool
  webpackExcluded : Bool
  functions : List ExtendedFunctionDefinition
deriving DecidableEq, Repr

/-- Tracing-mode derivation of `beforePackageFunction` (`index.ts` lines
81–88): start from `NONE`, then the `if / else if` chain over the two
tracing booleans. -/
def computeTracingMode (config : ResolvedConfig) : TracingMode :=
  if config.enableXrayTracing && config.enableDDTracing then TracingMode.HYBRID
  else if config.enableDDTracing then TracingMode.DD_TRACE
  else if config.enableXrayTracing then TracingMode.XRAY
  else TracingMode.NONE

/-- One conditional assignment of `addServiceAndEnvTags` (`index.ts` lines
133–135 and 138–140): `if (!tags[k]) \x7b tags[k] = v \x7d`. -/
def setTagIfFalsy (k v : String) (tags : List (String × String)) : List (String × String) :=
  if tagTruthy tags k then tags else setTag tags k v

/-- The tag object a function enters the tag pass with (`index.ts` lines
128–130): the declared tags, defaulted to `\x7b\x7d` when absent. -/
def tagsOrEmpty (f : ExtendedFunctionDefinition) : List (String × String) :=
  match f.tags with
  | none => []
  | some t => t

/-- The tag-map transformation of `addServiceAndEnvTags` (`index.ts` lines
132–140): the service-tag assignment, then the environment-tag assignment. -/
def addTagsToMap (serviceName stage : String)
    (tags0 : List (String × String)) : List (String × String) :=
  setTagIfFalsy TagKeys.Env stage (setTagIfFalsy TagKeys.Service serviceName tags0)

/-- The body of `addServiceAndEnvTags` for one function definition
(`index.ts` lines 126–140): default a missing tag object to `\x7b\x7d`, then
set the service tag and the environment tag, each only when the current
value is falsy. -/
def addServiceAndEnvTagsFn (serviceName stage : String)
    (f : ExtendedFunctionDefinition) : ExtendedFunctionDefinition :=
  { f with tags := some (addTagsToMap serviceName stage (tagsOrEmpty f)) }

/-- `addServiceAndEnvTags` (`index.ts` lines 124–142): apply the per-function
body to every function of the service, the service name coming from
`getServiceName()` and the stage from the AWS provider's `getStage()`. -/
def addServiceAndEnvTags (s : Service) : Service :=
  { s with functions := s.functions.map (addServiceAndEnvTagsFn s.serviceName s.stage) }

/-- Modelled from the spec: the known Node-family runtime strings of the
classifier in `layer.ts` (not under the given source).  §4.1: "If the
runtime string matches a known managed-language/version pattern, return the
corresponding concrete RuntimeType"; the Node family is the `nodejs*`
managed runtimes. -/
def nodeRuntimes : List String :=
  ["nodejs8.10", "nodejs10.x", "nodejs12.x", "nodejs14.x", "nodejs16.x", "nodejs18.x"]

/-- Membership of a runtime string in the Node family. -/
def isNodeRuntime (r : String) : Bool := nodeRuntimes.contains r

/-- Modelled from the spec: the known Python-family runtime strings
recognized by the classifier in `layer.ts` (not under the given source). -/
def pythonRuntimes : List String :=
  ["python2.7", "python3.6", "python3.7", "python3.8"]

/-- Membership of a runtime string in the Python family. -/
def isPythonRuntime (r : String) : Bool := pythonRuntimes.contains r

/-- Modelled from the spec: the runtime classifier of `layer.ts` (not under
the given source).  §4.1: a recognized pattern yields its concrete
`RuntimeType`; for a Node-family runtime a present module-type hint (the
`defaultNodeRuntime` computed by `getHandlers`) overrides the generic Node
classification; an absent or unrecognized string yields `UNSUPPORTED`. -/
def classifyRuntime (runtime : Option String)
    (defaultNodeRuntime : Option RuntimeType) : RuntimeType :=
  match runtime with
  | none => RuntimeType.UNSUPPORTED
  | some r =>
    if isNodeRuntime r then defaultNodeRuntime.getD RuntimeType.NODE
    else if isPythonRuntime r then RuntimeType.PYTHON
    else RuntimeType.UNSUPPORTED

/-- The runtime string a function is classified by: its declared runtime, or
the provider-level default when it declares none. -/
def effectiveRuntime (defaultRuntime : Option String)
    (f : ExtendedFunctionDefinition) : Option String :=
  match f.runtime with
  | some r => some r
  | none => defaultRuntime

/-- Modelled from the spec: `findHandlers` of `layer.ts` (not under the given
source) projected to one function definition.  §3 `FunctionInfo`: name,
runtime classification, handler path; the function's declared runtime string,
or the provider-level default when absent, is retained for diagnostics. -/
def functionInfoOf (defaultRuntime : Option String)
    (defaultNodeRuntime : Option RuntimeType)
    (f : ExtendedFunctionDefinition) : FunctionInfo :=
  { name := f.name
    type := classifyRuntime (effectiveRuntime defaultRuntime f) defaultNodeRuntime
    handler := f.handler
    runtime := effectiveRuntime defaultRuntime f }

/-- Modelled from the spec: `findHandlers` of `layer.ts` (not under the given
source): one `FunctionInfo` per function definition of the service. -/
def findHandlers (s : Service) (defaultRuntime : Option String)
    (defaultNodeRuntime : Option RuntimeType) : List FunctionInfo :=
  s.functions.map (functionInfoOf defaultRuntime defaultNodeRuntime)

/-- The `switch (nodeModuleType)` of `getHandlers` (`index.ts` lines
146–157): the default Node runtime override, left `undefined` when no case
matches. -/
def getHandlersDefaultNodeRuntime : Option NodeModuleType → Option RuntimeType
  | some NodeModuleType.es6 => some RuntimeType.NODE_ES6
  | some NodeModuleType.typescript => some RuntimeType.NODE_TS
  | some NodeModuleType.node => some RuntimeType.NODE
  | none => none

/-- `getHandlers` (`index.ts` lines 144–159): read the provider-level default
runtime, compute the default Node runtime override from the module-type
hint, and discover the handlers. -/
def getHandlers (s : Service) (nodeModuleType : Option NodeModuleType) : List FunctionInfo :=
  findHandlers s s.providerRuntime (getHandlersDefaultNodeRuntime nodeModuleType)

/-- `debugLogHandlers` (`index.ts` lines 110–122) as the list of log lines it
emits, in order: one line per `UNSUPPORTED` handler, mentioning the function
name, and the runtime string when one is present. -/
def debugLogHandlers (handlers : List FunctionInfo) : List String :=
  handlers.filterMap (fun handler =>
    if handler.type = RuntimeType.UNSUPPORTED then
      match handler.runtime with
      | none => some ("Unable to determine runtime for function " ++ handler.name)
      | some r => some ("Unable to add Lambda Layers to function " ++ handler.name
          ++ " with runtime " ++ r)
    else none)

/-- One entry of the phase traces: a `cli.log` line or a call into one of the
external collaborator passes, with the arguments `index.ts` passes it. -/
inductive Event where
  | log : String → Event
  | setEnvConfiguration : Event
  | applyLayers : Option String → List FunctionInfo → Event
  | forceExcludeDepsFromWebpack : Event
  | enableTracing : TracingMode → Event
  | addForwarderSubscriptions : String → Event
  | addServiceAndEnvTags : Event
  | redirectHandlers : List FunctionInfo → Bool → Event
deriving DecidableEq, Repr

/-- Modelled from the spec: the data-level effect of `applyLayers`
(`layer.ts`, not under the given source).  §4.4.1: for each function
classified as a supported runtime, attach the instrumentation layer
reference resolved by region and runtime (the reference is the static-lookup
key `(region, runtime)`, §6); skip `UNSUPPORTED` functions; attachment is
idempotent (§1: "a sequence of idempotent mutations"). -/
def applyLayersModel (region : Option String) (defaultRuntime : Option String)
    (defaultNodeRuntime : Option RuntimeType) (s : Service) : Service :=
  { s with functions := s.functions.map (fun f =>
      let info := functionInfoOf defaultRuntime defaultNodeRuntime f
      if info.type = RuntimeType.UNSUPPORTED then f
      else if (region, info.type) ∈ f.layers then f
      else { f with layers := f.layers ++ [(region, info.type)] }) }

/-- Modelled from the spec: the data-level effect of
`forceExcludeDepsFromWebpack` (`env.ts`, not under the given source).  §6:
force the bundler to treat the instrumentation dependency as externally
provided. -/
def forceExcludeDepsFromWebpackModel (s : Service) : Service :=
  { s with webpackExcluded := true }

/-- The layer-attachment block of `beforePackageFunction` (`index.ts` lines
70–79): when `addLayers` is set, log, emit the per-handler diagnostics, call
`applyLayers`, and — only when a webpack plugin is detected — force the
dependency exclusion; otherwise only log the skip message. -/
def layerPass (s : Service) (config : ResolvedConfig)
    (handlers : List FunctionInfo) : Service × List Event :=
  if config.addLayers then
    let events := [Event.log "Adding Lambda Layers to functions"]
      ++ (debugLogHandlers handlers).map Event.log
      ++ [Event.applyLayers s.providerRegion handlers]
    let s1 := applyLayersModel s.providerRegion s.providerRuntime
      (getHandlersDefaultNodeRuntime config.nodeModuleType) s
    if s1.hasWebpack then
      (forceExcludeDepsFromWebpackModel s1, events ++ [Event.forceExcludeDepsFromWebpack])
    else (s1, events)
  else (s, [Event.log "Skipping adding Lambda Layers, make sure you are packaging them yourself"])

/-- `beforePackageFunction` (`index.ts` lines 64–90): log, push the resolved
configuration into the environment (`setEnvConfiguration`, external), run the
layer-attachment block, then derive the tracing mode and call
`enableTracing`.  `getConfig` is external (`env.ts`), so the resolved
configuration is a parameter. -/
def beforePackageFunction (s : Service) (config : ResolvedConfig) : Service × List Event :=
  let handlers := getHandlers s config.nodeModuleType
  let (s1, layerEvents) := layerPass s config handlers
  (s1,
    [Event.log "Auto instrumenting functions with Datadog", Event.setEnvConfiguration]
    ++ layerEvents
    ++ [Event.enableTracing (computeTracingMode config)])

/-- `afterPackageFunction` (`index.ts` lines 91–108): when a forwarder is
configured, call `addCloudWatchForwarderSubscriptions` (external,
`forwarder.ts`) and log each error it returns; when tagging is enabled, log
and run the tag pass; finally rediscover the handlers and call
`redirectHandlers` (external, `wrapper.ts`) with the `addLayers` flag.  The
error list returned by the remote forwarder call is a parameter. -/
def afterPackageFunction (s : Service) (config : ResolvedConfig)
    (forwarderErrors : List String) : Service × List Event :=
  let forwarderEvents := match config.forwarder with
    | some fw => [Event.addForwarderSubscriptions fw] ++ forwarderErrors.map Event.log
    | none => []
  let (s1, tagEvents) := if config.enableTags then
      (addServiceAndEnvTags s,
        [Event.log "Adding service and environment tags to functions",
          Event.addServiceAndEnvTags])
    else (s, [])
  let handlers := getHandlers s1 config.nodeModuleType
  (s1, forwarderEvents ++ tagEvents
    ++ [Event.redirectHandlers handlers config.addLayers])

/-- The two phase entry points the hook table binds events to. -/
inductive PhaseFn where
  | beforePackageFunction
  | afterPackageFunction
deriving DecidableEq, Repr

/-- The `hooks` table of the plugin (`index.ts` lines 33–44): each lifecycle
event name bound to one of the two phase entry points. -/
def hooks : List (String × PhaseFn) :=
  [("after:datadog:clean:init", PhaseFn.afterPackageFunction),
   ("after:datadog:generate:init", PhaseFn.beforePackageFunction),
   ("after:deploy:function:packageFunction", PhaseFn.afterPackageFunction),
   ("after:invoke:local:invoke", PhaseFn.afterPackageFunction),
   ("after:package:createDeploymentArtifacts", PhaseFn.afterPackageFunction),
   ("after:package:initialize", PhaseFn.beforePackageFunction),
   ("before:deploy:function:packageFunction", PhaseFn.beforePackageFunction),
   ("before:invoke:local:invoke", PhaseFn.beforePackageFunction),
   ("before:offline:start:init", PhaseFn.beforePackageFunction),
   ("before:step-functions-offline:start", PhaseFn.beforePackageFunction)]

/-- Dispatch of a phase entry point: run the phase the hook table selected. -/
def runPhase (p : PhaseFn) (s : Service) (config : ResolvedConfig)
    (forwarderErrors : List String) : Service × List Event :=
  match p with
  | PhaseFn.beforePackageFunction => beforePackageFunction s config
  | PhaseFn.afterPackageFunction => afterPackageFunction s config forwarderErrors

/-- The mutation passes a trace event can belong to, for stating the order of
passes within a phase; log lines and configuration injection carry no pass. -/
inductive PassKind where
  | layerAttachment
  | tracingInjection
  | forwarderSubscription
  | tagInjection
  | handlerRedirection
deriving DecidableEq, Repr

/-- The pass a trace event belongs to, when it belongs to one. -/
def Event.passOf : Event → Option PassKind
  | Event.applyLayers _ _ => some PassKind.layerAttachment
  | Event.enableTracing _ => some PassKind.tracingInjection
  | Event.addForwarderSubscriptions _ => some PassKind.forwarderSubscription
  | Event.addServiceAndEnvTags => some PassKind.tagInjection
  | Event.redirectHandlers _ _ => some PassKind.handlerRedirection
  | _ => none

/-- The sequence of mutation passes a trace runs, in order. -/
def passSeq (tr : List Event) : List PassKind :=
  tr.filterMap Event.passOf

/-! ## Concrete instances used by witnesses and counterexamples -/

/-- Concrete service used to instantiate the amended C2 theorem. -/
def tagsWitnessService : Service :=
  { serviceName := "web-api", providerRuntime := none, providerRegion := none,
    stage := "prod", hasWebpack := false, webpackExcluded := false,
    functions := [{ name := "f", handler := "h", runtime := none,
                    tags := some [(TagKeys.Service, "custom-svc")], layers := [] }] }

/-- The function of end-to-end scenario 4: already tagged
`service = "custom"`, no environment tag. -/
def fCustomTag : ExtendedFunctionDefinition :=
  { name := "func1", handler := "h.main", runtime := none,
    tags := some [(TagKeys.Service, "custom")], layers := [] }

/-- A concrete Node function definition declaring runtime `nodejs18.x`. -/
def fNode18 : ExtendedFunctionDefinition :=
  { name := "node-fn", handler := "h.main", runtime := some "nodejs18.x",
    tags := none, layers := [] }

/-- A handler classified `UNSUPPORTED` with its runtime string retained. -/
def unsupportedInfo : FunctionInfo :=
  { name := "legacy-fn", type := RuntimeType.UNSUPPORTED, handler := "h.main",
    runtime := some "go1.x" }

/-- A supported Node handler. -/
def supportedInfo : FunctionInfo :=
  { name := "node-fn", type := RuntimeType.NODE, handler := "h.main",
    runtime := some "nodejs18.x" }

/-- A resolved configuration with layer attachment disabled. -/
def cfgLayersOff : ResolvedConfig :=
  { addLayers := false, enableXrayTracing := false, enableDDTracing := true,
    enableTags := false, forwarder := none, nodeModuleType := none }

/-- A resolved configuration with layers, tags and a forwarder target
enabled. -/
def cfgLayersOn : ResolvedConfig :=
  { addLayers := true, enableXrayTracing := false, enableDDTracing := true,
    enableTags := true, forwarder := some "forwarder-arn", nodeModuleType := none }

/-! ## Helper lemmas -/

theorem lookupTag_setTag_self (t : List (String × String)) (k v : String) :
    lookupTag (setTag t k v) k = some v := by
  induction t with
  | nil => simp [setTag, lookupTag]
  | cons p ps ih =>
    by_cases h : p.1 = k
    · simp [setTag, lookupTag, h]
    · simp [setTag, lookupTag, h, ih]

theorem lookupTag_setTag_ne (t : List (String × String)) {k k' : String}
    (v : String) (h : k' ≠ k) :
    lookupTag (setTag t k v) k' = lookupTag t k' := by
  induction t with
  | nil => simp [setTag, lookupTag, Ne.symm h]
  | cons p ps ih =>
    by_cases hp : p.1 = k
    · simp [setTag, lookupTag, hp, Ne.symm h]
    · simp [setTag, lookupTag, hp, ih]

theorem setTag_of_lookupTag_eq {t : List (String × String)} {k v : String}
    (h : lookupTag t k = some v) : setTag t k v = t := by
  induction t with
  | nil => simp [lookupTag] at h
  | cons p ps ih =>
    by_cases hp : p.1 = k
    · have h2 : p.2 = v := by simpa [lookupTag, hp] using h
      simp only [setTag, if_pos hp]
      rw [← hp, ← h2]
    · have h' : lookupTag ps k = some v := by simpa [lookupTag, hp] using h
      simp [setTag, hp, ih h']

theorem tagTruthy_of_lookupTag {t : List (String × String)} {k v : String}
    (h : lookupTag t k = some v) (hv : v ≠ "") : tagTruthy t k = true := by
  simp [tagTruthy, h, hv]

theorem tagTruthy_congr {t t' : List (String × String)} {k : String}
    (h : lookupTag t k = lookupTag t' k) : tagTruthy t k = tagTruthy t' k := by
  unfold tagTruthy
  rw [h]

theorem lookupTag_setTagIfFalsy_ne (t : List (String × String)) {k k' : String}
    (v : String) (h : k' ≠ k) :
    lookupTag (setTagIfFalsy k v t) k' = lookupTag t k' := by
  unfold setTagIfFalsy
  by_cases ht : tagTruthy t k
  · simp [ht]
  · simp [ht, lookupTag_setTag_ne t v h]

theorem setTagIfFalsy_fix {k v : String} {t : List (String × String)}
    (h : lookupTag t k = some v ∨ tagTruthy t k = true) :
    setTagIfFalsy k v t = t := by
  unfold setTagIfFalsy
  by_cases ht : tagTruthy t k
  · simp [ht]
  · rcases h with h | h
    · simp [ht, setTag_of_lookupTag_eq h]
    · exact absurd h ht

theorem setTagIfFalsy_post (k v : String) (t : List (String × String)) :
    (tagTruthy t k = true ∧ setTagIfFalsy k v t = t) ∨
      lookupTag (setTagIfFalsy k v t) k = some v := by
  unfold setTagIfFalsy
  by_cases ht : tagTruthy t k
  · exact Or.inl ⟨ht, by simp [ht]⟩
  · simp [ht, lookupTag_setTag_self]

theorem setTagIfFalsy_idem (k v : String) (t : List (String × String)) :
    setTagIfFalsy k v (setTagIfFalsy k v t) = setTagIfFalsy k v t := by
  rcases setTagIfFalsy_post k v t with ⟨_, heq⟩ | hl
  · rw [heq]
    exact heq
  · exact setTagIfFalsy_fix (Or.inl hl)

theorem addTagsToMap_idem (sn st : String) (t0 : List (String × String)) :
    addTagsToMap sn st (addTagsToMap sn st t0) = addTagsToMap sn st t0 := by
  unfold addTagsToMap
  have hne : TagKeys.Service ≠ TagKeys.Env := by decide
  have hserv : setTagIfFalsy TagKeys.Service sn
      (setTagIfFalsy TagKeys.Env st (setTagIfFalsy TagKeys.Service sn t0)) =
      setTagIfFalsy TagKeys.Env st (setTagIfFalsy TagKeys.Service sn t0) := by
    have hlk : lookupTag (setTagIfFalsy TagKeys.Env st (setTagIfFalsy TagKeys.Service sn t0))
        TagKeys.Service = lookupTag (setTagIfFalsy TagKeys.Service sn t0) TagKeys.Service :=
      lookupTag_setTagIfFalsy_ne _ st hne
    rcases setTagIfFalsy_post TagKeys.Service sn t0 with ⟨ht, heq⟩ | hl
    · refine setTagIfFalsy_fix (Or.inr ?_)
      rw [tagTruthy_congr hlk, heq, tagTruthy_congr (rfl : lookupTag t0 TagKeys.Service =
        lookupTag t0 TagKeys.Service)]
      exact ht
    · exact setTagIfFalsy_fix (Or.inl (hlk.trans hl))
  rw [hserv, setTagIfFalsy_idem]

theorem addServiceAndEnvTagsFn_idem (sn st : String) (f : ExtendedFunctionDefinition) :
    addServiceAndEnvTagsFn sn st (addServiceAndEnvTagsFn sn st f) =
      addServiceAndEnvTagsFn sn st f := by
  simp [addServiceAndEnvTagsFn, tagsOrEmpty, addTagsToMap_idem]

theorem passSeq_append (a b : List Event) :
    passSeq (a ++ b) = passSeq a ++ passSeq b := by
  simp [passSeq, List.filterMap_append]

theorem passSeq_logs (l : List String) : passSeq (l.map Event.log) = [] := by
  induction l with
  | nil => rfl
  | cons x xs ih => simp [passSeq, Event.passOf] at ih ⊢

theorem applyLayersModel_hasWebpack (r : Option String) (dr : Option String)
    (dn : Option RuntimeType) (s : Service) :
    (applyLayersModel r dr dn s).hasWebpack = s.hasWebpack := rfl

/-! ## Claims -/

/-- C1: the tracing mode computed in the before-package phase is total over
the two tracing booleans: both false gives `NONE`, only the vendor (DD) flag
gives `DD_TRACE` (the spec's VENDOR_TRACE), only the X-Ray flag gives
`XRAY`, and both give `HYBRID`, which dominates. -/
theorem computeTracingMode_total (c : ResolvedConfig) :
    (c.enableXrayTracing = false → c.enableDDTracing = false →
      computeTracingMode c = TracingMode.NONE) ∧
    (c.enableXrayTracing = false → c.enableDDTracing = true →
      computeTracingMode c = TracingMode.DD_TRACE) ∧
    (c.enableXrayTracing = true → c.enableDDTracing = false →
      computeTracingMode c = TracingMode.XRAY) ∧
    (c.enableXrayTracing = true → c.enableDDTracing = true →
      computeTracingMode c = TracingMode.HYBRID) := by
  cases hx : c.enableXrayTracing <;> cases hd : c.enableDDTracing <;>
    simp [computeTracingMode, hx, hd]

/-- Witness for C1 at a concrete configuration with both tracing flags
set. -/
theorem computeTracingMode_total_witness :
    computeTracingMode
      { addLayers := true, enableXrayTracing := true, enableDDTracing := true,
        enableTags := false, forwarder := none, nodeModuleType := none } =
      TracingMode.HYBRID :=
  (computeTracingMode_total
    { addLayers := true, enableXrayTracing := true, enableDDTracing := true,
      enableTags := false, forwarder := none, nodeModuleType := none }).2.2.2 rfl rfl

/-- C9: the hook table is a many-to-one pure routing map: each registered
lifecycle event name is bound exactly once, always to one of the two phase
entry points; the before-side events (package initialize, deploy-function,
local invoke, the two offline starts, datadog generate) map to the
before-package phase and the after-side events (plus datadog clean) map to
the after-package phase. -/
theorem hooks_pure_routing :
    (hooks.map Prod.fst).Nodup ∧
    (∀ p ∈ hooks, p.2 = PhaseFn.beforePackageFunction ∨
      p.2 = PhaseFn.afterPackageFunction) ∧
    hooks.lookup "after:package:initialize" = some PhaseFn.beforePackageFunction ∧
    hooks.lookup "before:deploy:function:packageFunction" = some PhaseFn.beforePackageFunction ∧
    hooks.lookup "before:invoke:local:invoke" = some PhaseFn.beforePackageFunction ∧
    hooks.lookup "before:offline:start:init" = some PhaseFn.beforePackageFunction ∧
    hooks.lookup "before:step-functions-offline:start" = some PhaseFn.beforePackageFunction ∧
    hooks.lookup "after:datadog:generate:init" = some PhaseFn.beforePackageFunction ∧
    hooks.lookup "after:package:createDeploymentArtifacts" = some PhaseFn.afterPackageFunction ∧
    hooks.lookup "after:deploy:function:packageFunction" = some PhaseFn.afterPackageFunction ∧
    hooks.lookup "after:invoke:local:invoke" = some PhaseFn.afterPackageFunction ∧
    hooks.lookup "after:datadog:clean:init" = some PhaseFn.afterPackageFunction ∧
    hooks.length = 10 := by
  decide

/-- C10: every after-package run ends by invoking handler redirection,
unconditionally, over the handler set classified from the full function list
of the resulting service, and passes it the resolved `addLayers` flag — with
no configuration guard (the statement holds for every configuration,
including one with no forwarder and tagging disabled). -/
theorem afterPackage_redirect_unconditional (s : Service) (c : ResolvedConfig)
    (errs : List String) :
    ∃ tr, (afterPackageFunction s c errs).2 =
      tr ++ [Event.redirectHandlers
        (getHandlers (afterPackageFunction s c errs).1 c.nodeModuleType) c.addLayers] := by
  cases hf : c.forwarder with
  | none =>
    cases ht : c.enableTags with
    | false => exact ⟨[], by simp [afterPackageFunction, hf, ht]⟩
    | true =>
      exact ⟨[Event.log "Adding service and environment tags to functions",
        Event.addServiceAndEnvTags], by simp [afterPackageFunction, hf, ht]⟩
  | some fw =>
    cases ht : c.enableTags with
    | false =>
      exact ⟨Event.addForwarderSubscriptions fw :: errs.map Event.log,
        by simp [afterPackageFunction, hf, ht]⟩
    | true =>
      exact ⟨Event.addForwarderSubscriptions fw :: (errs.map Event.log
        ++ [Event.log "Adding service and environment tags to functions",
          Event.addServiceAndEnvTags]), by simp [afterPackageFunction, hf, ht]⟩

/-- C2 counterexample: the claim's non-overwrite guarantee fails as stated.
The function's tag map contains the value `""` under the service tag key,
yet the pass replaces it with the service name: `if (!tags[k])` treats an
empty string as absent (JavaScript falsiness). -/
theorem addServiceAndEnvTags_overwrite_cex :
    lookupTag [(TagKeys.Service, "")] TagKeys.Service = some "" ∧
    lookupTag ((addServiceAndEnvTagsFn "my-service" "dev"
      { name := "func1", handler := "h.main", runtime := none,
        tags := some [(TagKeys.Service, "")], layers := [] }).tags.getD [])
      TagKeys.Service ≠ some "" := by
  decide

/-- C2 (amended): the tag-injection pass is idempotent — running
`addServiceAndEnvTags` twice yields the same service, hence the same tags,
as running it once — and it never overwrites a pre-existing *truthy*
(non-empty) value under the service tag key or the environment tag key; a
pre-existing empty-string value is falsy for `if (!tags[k])` and is
overwritten. -/
theorem addServiceAndEnvTags_idem_nonoverwriting (s : Service) :
    addServiceAndEnvTags (addServiceAndEnvTags s) = addServiceAndEnvTags s ∧
    (∀ f : ExtendedFunctionDefinition, ∀ t v, f.tags = some t →
      lookupTag t TagKeys.Service = some v → v ≠ "" →
      lookupTag ((addServiceAndEnvTagsFn s.serviceName s.stage f).tags.getD [])
        TagKeys.Service = some v) ∧
    (∀ f : ExtendedFunctionDefinition, ∀ t v, f.tags = some t →
      lookupTag t TagKeys.Env = some v → v ≠ "" →
      lookupTag ((addServiceAndEnvTagsFn s.serviceName s.stage f).tags.getD [])
        TagKeys.Env = some v) := by
  refine ⟨?_, ?_, ?_⟩
  · have hpt : ∀ f, addServiceAndEnvTagsFn s.serviceName s.stage
        (addServiceAndEnvTagsFn s.serviceName s.stage f) =
        addServiceAndEnvTagsFn s.serviceName s.stage f :=
      addServiceAndEnvTagsFn_idem s.serviceName s.stage
    simp [addServiceAndEnvTags, List.map_map, Function.comp, hpt]
  · intro f t v hft hlk hv
    have htr : tagTruthy t TagKeys.Service = true := tagTruthy_of_lookupTag hlk hv
    have h1 : setTagIfFalsy TagKeys.Service s.serviceName t = t := by
      unfold setTagIfFalsy
      simp [htr]
    have h2 : lookupTag (addTagsToMap s.serviceName s.stage t) TagKeys.Service = some v := by
      unfold addTagsToMap
      rw [lookupTag_setTagIfFalsy_ne _ _ (by decide : TagKeys.Service ≠ TagKeys.Env), h1, hlk]
    simp [addServiceAndEnvTagsFn, tagsOrEmpty, hft, h2]
  · intro f t v hft hlk hv
    have hlk1 : lookupTag (setTagIfFalsy TagKeys.Service s.serviceName t) TagKeys.Env = some v := by
      rw [lookupTag_setTagIfFalsy_ne _ _ (by decide : TagKeys.Env ≠ TagKeys.Service), hlk]
    have h2 : lookupTag (addTagsToMap s.serviceName s.stage t) TagKeys.Env = some v := by
      unfold addTagsToMap
      rw [setTagIfFalsy_fix (Or.inr (tagTruthy_of_lookupTag hlk1 hv)), hlk1]
    simp [addServiceAndEnvTagsFn, tagsOrEmpty, hft, h2]

/-- Witness for the amended C2 at a concrete function carrying a non-empty
service tag. -/
theorem addServiceAndEnvTags_idem_nonoverwriting_witness :
    lookupTag ((addServiceAndEnvTagsFn tagsWitnessService.serviceName tagsWitnessService.stage
      { name := "f", handler := "h", runtime := none,
        tags := some [(TagKeys.Service, "custom-svc")], layers := [] }).tags.getD [])
      TagKeys.Service = some "custom-svc" :=
  (addServiceAndEnvTags_idem_nonoverwriting tagsWitnessService).2.1
    { name := "f", handler := "h", runtime := none,
      tags := some [(TagKeys.Service, "custom-svc")], layers := [] }
    [(TagKeys.Service, "custom-svc")] "custom-svc" rfl (by decide) (by decide)

/-- C3 counterexample: after the tag pass on a function tagged only
`service = "custom"`, the stage is stored under the tag key `"env"`
(`TagKeys.Env`), and there is no key named `"environment"` at all — the
claim's expected map `\x7bservice: "custom", environment: stage\x7d` is not
produced. -/
theorem envTagKey_cex :
    (addServiceAndEnvTagsFn "svc" "prod" fCustomTag).tags =
      some [(TagKeys.Service, "custom"), (TagKeys.Env, "prod")] ∧
    lookupTag ((addServiceAndEnvTagsFn "svc" "prod" fCustomTag).tags.getD [])
      "environment" = none ∧
    lookupTag ((addServiceAndEnvTagsFn "svc" "prod" fCustomTag).tags.getD [])
      "env" = some "prod" := by
  decide

/-- C3 (amended): with tag injection enabled, a function already tagged
`service = "custom"` and with no environment tag ends the pass with the tag
map `\x7bservice: "custom", env: stage\x7d` — the stage value is stored
under the tag key named `"env"`, not `"environment"`. -/
theorem tagPass_customService_envKey (sn st : String) (f : ExtendedFunctionDefinition)
    (h : f.tags = some [(TagKeys.Service, "custom")]) :
    (addServiceAndEnvTagsFn sn st f).tags =
      some [(TagKeys.Service, "custom"), (TagKeys.Env, st)] := by
  have h1 : tagTruthy [(TagKeys.Service, "custom")] TagKeys.Service = true := by decide
  have h2 : tagTruthy [(TagKeys.Service, "custom")] TagKeys.Env = false := by decide
  have h3 : setTag [(TagKeys.Service, "custom")] TagKeys.Env st =
      [(TagKeys.Service, "custom"), (TagKeys.Env, st)] := by
    simp only [setTag]
    rw [if_neg (by decide : ¬ (TagKeys.Service, "custom").1 = TagKeys.Env)]
  simp [addServiceAndEnvTagsFn, tagsOrEmpty, h, addTagsToMap, setTagIfFalsy, h1, h2, h3]

/-- Witness for the amended C3 at a concrete service name and stage. -/
theorem tagPass_customService_envKey_witness :
    (addServiceAndEnvTagsFn "svc-w" "stage-w" fCustomTag).tags =
      some [(TagKeys.Service, "custom"), (TagKeys.Env, "stage-w")] :=
  tagPass_customService_envKey "svc-w" "stage-w" fCustomTag rfl

theorem filterMap_passOf_logs (l : List String) :
    List.filterMap Event.passOf (l.map Event.log) = [] :=
  passSeq_logs l

theorem passSeq_layerPass (s : Service) (c : ResolvedConfig)
    (handlers : List FunctionInfo) :
    passSeq (layerPass s c handlers).2 =
      if c.addLayers then [PassKind.layerAttachment] else [] := by
  cases ha : c.addLayers with
  | false => simp [layerPass, ha, passSeq, Event.passOf]
  | true =>
    by_cases hw : s.hasWebpack
    · simp [layerPass, ha, applyLayersModel_hasWebpack, hw, passSeq, Event.passOf,
        List.filterMap_append, filterMap_passOf_logs]
    · simp [layerPass, ha, applyLayersModel_hasWebpack, hw, passSeq, Event.passOf,
        List.filterMap_append, filterMap_passOf_logs]

theorem passSeq_beforePackage (s : Service) (c : ResolvedConfig) :
    passSeq (beforePackageFunction s c).2 =
      (if c.addLayers then [PassKind.layerAttachment] else [])
        ++ [PassKind.tracingInjection] := by
  have htr : (beforePackageFunction s c).2 =
      [Event.log "Auto instrumenting functions with Datadog", Event.setEnvConfiguration]
      ++ (layerPass s c (getHandlers s c.nodeModuleType)).2
      ++ [Event.enableTracing (computeTracingMode c)] := rfl
  rw [htr, passSeq_append, passSeq_append, passSeq_layerPass]
  simp [passSeq, Event.passOf]

theorem passSeq_afterPackage (s : Service) (c : ResolvedConfig) (errs : List String) :
    passSeq (afterPackageFunction s c errs).2 =
      (match c.forwarder with
        | some _ => [PassKind.forwarderSubscription]
        | none => [])
      ++ (if c.enableTags then [PassKind.tagInjection] else [])
      ++ [PassKind.handlerRedirection] := by
  cases hf : c.forwarder <;> cases ht : c.enableTags <;>
    simp [afterPackageFunction, hf, ht, passSeq, Event.passOf,
      List.filterMap_append, filterMap_passOf_logs]

/-- C4: the passes of each phase run in the fixed order of the source,
whichever registered lifecycle event dispatched the phase: a before-package
run executes layer attachment (when enabled) and then tracing injection; an
after-package run executes forwarder subscription (when configured), then
tag injection (when enabled), then handler redirection. -/
theorem phase_pass_order (hk : String × PhaseFn) (_hmem : hk ∈ hooks)
    (s : Service) (c : ResolvedConfig) (errs : List String) :
    (hk.2 = PhaseFn.beforePackageFunction →
      passSeq (runPhase hk.2 s c errs).2 =
        (if c.addLayers then [PassKind.layerAttachment] else [])
          ++ [PassKind.tracingInjection]) ∧
    (hk.2 = PhaseFn.afterPackageFunction →
      passSeq (runPhase hk.2 s c errs).2 =
        (match c.forwarder with
          | some _ => [PassKind.forwarderSubscription]
          | none => [])
        ++ (if c.enableTags then [PassKind.tagInjection] else [])
        ++ [PassKind.handlerRedirection]) := by
  constructor
  · intro hb
    rw [hb]
    exact passSeq_beforePackage s c
  · intro hb
    rw [hb]
    exact passSeq_afterPackage s c errs

/-- Witness for C4: the hook bound to `after:package:initialize` dispatches
the before-package phase, whose pass sequence at a concrete service and
configuration is layer attachment followed by tracing injection. -/
theorem phase_pass_order_witness :
    passSeq (runPhase PhaseFn.beforePackageFunction tagsWitnessService cfgLayersOn []).2 =
      [PassKind.layerAttachment, PassKind.tracingInjection] :=
  (phase_pass_order ("after:package:initialize", PhaseFn.beforePackageFunction)
    (by decide) tagsWitnessService cfgLayersOn []).1 rfl

/-- C5: forwarder subscription runs only when a forwarder target is
configured; every error the (external) subscription call returns is surfaced
as its own log line in the trace, none is thrown (the phase is a total
function); and the phase still reaches the tag-injection pass (when enabled)
and the handler-redirection pass whatever the collected errors are. -/
theorem afterPackage_forwarder_partial_failure (s : Service) (c : ResolvedConfig)
    (errs : List String) :
    (c.forwarder = none →
      ∀ fw, Event.addForwarderSubscriptions fw ∉ (afterPackageFunction s c errs).2) ∧
    (∀ fw, c.forwarder = some fw →
      Event.addForwarderSubscriptions fw ∈ (afterPackageFunction s c errs).2 ∧
      ∀ e ∈ errs, Event.log e ∈ (afterPackageFunction s c errs).2) ∧
    (∃ hs, Event.redirectHandlers hs c.addLayers ∈ (afterPackageFunction s c errs).2) ∧
    (c.enableTags = true →
      Event.addServiceAndEnvTags ∈ (afterPackageFunction s c errs).2) := by
  refine ⟨?_, ?_, ?_, ?_⟩
  · intro hf fw
    cases ht : c.enableTags <;>
      simp [afterPackageFunction, hf, ht]
  · intro fw hf
    cases ht : c.enableTags with
    | false => simp [afterPackageFunction, hf, ht, List.mem_map]
    | true =>
      simp [afterPackageFunction, hf, ht, List.mem_map]
      exact fun e he => Or.inl he
  · cases hf : c.forwarder with
    | none =>
      cases ht : c.enableTags with
      | false =>
        exact ⟨getHandlers s c.nodeModuleType, by simp [afterPackageFunction, hf, ht]⟩
      | true =>
        exact ⟨getHandlers (addServiceAndEnvTags s) c.nodeModuleType,
          by simp [afterPackageFunction, hf, ht]⟩
    | some fw =>
      cases ht : c.enableTags with
      | false =>
        exact ⟨getHandlers s c.nodeModuleType, by simp [afterPackageFunction, hf, ht]⟩
      | true =>
        exact ⟨getHandlers (addServiceAndEnvTags s) c.nodeModuleType,
          by simp [afterPackageFunction, hf, ht]⟩
  · intro ht
    cases hf : c.forwarder <;>
      simp [afterPackageFunction, hf, ht]

/-- Witness for C5 at a configured forwarder and one collected error. -/
theorem afterPackage_forwarder_partial_failure_witness :
    Event.addForwarderSubscriptions "forwarder-arn"
      ∈ (afterPackageFunction tagsWitnessService cfgLayersOn ["subscription failed"]).2 ∧
    Event.log "subscription failed"
      ∈ (afterPackageFunction tagsWitnessService cfgLayersOn ["subscription failed"]).2 := by
  have h := (afterPackage_forwarder_partial_failure tagsWitnessService cfgLayersOn
    ["subscription failed"]).2.1 "forwarder-arn" rfl
  exact ⟨h.1, h.2 "subscription failed" (by simp)⟩

/-- C6: with `addLayers` disabled the layer block is a no-op — the service
(hence every function definition) is returned unchanged and the phase trace
contains neither an `applyLayers` call nor the webpack-exclusion side
effect; with `addLayers` enabled, the webpack-exclusion side effect runs
exactly when a webpack plugin is detected in the service manifest. -/
theorem layerPass_frame (s : Service) (c : ResolvedConfig) :
    (c.addLayers = false →
      (layerPass s c (getHandlers s c.nodeModuleType)).1 = s ∧
      (∀ r hs, Event.applyLayers r hs ∉ (beforePackageFunction s c).2) ∧
      Event.forceExcludeDepsFromWebpack ∉ (beforePackageFunction s c).2) ∧
    (c.addLayers = true →
      (Event.forceExcludeDepsFromWebpack ∈ (beforePackageFunction s c).2 ↔
        s.hasWebpack = true)) := by
  constructor
  · intro ha
    refine ⟨by simp [layerPass, ha], ?_, ?_⟩
    · intro r hs
      simp [beforePackageFunction, layerPass, ha]
    · simp [beforePackageFunction, layerPass, ha]
  · intro ha
    by_cases hw : s.hasWebpack
    · simp [beforePackageFunction, layerPass, ha, applyLayersModel_hasWebpack, hw,
        List.mem_map]
    · simp [beforePackageFunction, layerPass, ha, applyLayersModel_hasWebpack, hw,
        List.mem_map]

/-- Witness for C6: with layers disabled the service is unchanged and no
layer-pass event is emitted; with layers enabled and no webpack plugin
detected, the exclusion side effect does not run. -/
theorem layerPass_frame_witness :
    (layerPass tagsWitnessService cfgLayersOff
      (getHandlers tagsWitnessService cfgLayersOff.nodeModuleType)).1 = tagsWitnessService ∧
    (Event.forceExcludeDepsFromWebpack ∈
        (beforePackageFunction tagsWitnessService cfgLayersOn).2 ↔
      tagsWitnessService.hasWebpack = true) :=
  ⟨((layerPass_frame tagsWitnessService cfgLayersOff).1 rfl).1,
    (layerPass_frame tagsWitnessService cfgLayersOn).2 rfl⟩

/-- C7: for a function whose effective runtime string is in the Node family,
the module-type hint determines the classification through the
`defaultNodeRuntime` override computed by `getHandlers`: hint `typescript`
classifies as `NODE_TS`, hint `es6` as `NODE_ES6`, hint `node` as `NODE`,
and an unset hint leaves the default Node runtime override undefined. -/
theorem nodeModuleType_classification (dr : Option String)
    (f : ExtendedFunctionDefinition) (r : String)
    (hr : effectiveRuntime dr f = some r) (hn : isNodeRuntime r = true) :
    (functionInfoOf dr (getHandlersDefaultNodeRuntime (some NodeModuleType.typescript)) f).type
      = RuntimeType.NODE_TS ∧
    (functionInfoOf dr (getHandlersDefaultNodeRuntime (some NodeModuleType.es6)) f).type
      = RuntimeType.NODE_ES6 ∧
    (functionInfoOf dr (getHandlersDefaultNodeRuntime (some NodeModuleType.node)) f).type
      = RuntimeType.NODE ∧
    getHandlersDefaultNodeRuntime none = none := by
  refine ⟨?_, ?_, ?_, rfl⟩ <;>
    simp [functionInfoOf, classifyRuntime, hr, hn, getHandlersDefaultNodeRuntime]

/-- Witness for C7 at the concrete runtime string `nodejs18.x`. -/
theorem nodeModuleType_classification_witness :
    (functionInfoOf none (getHandlersDefaultNodeRuntime (some NodeModuleType.typescript))
      fNode18).type = RuntimeType.NODE_TS :=
  (nodeModuleType_classification none fNode18 "nodejs18.x" rfl (by decide)).1

/-- C8: for every handler classified `UNSUPPORTED` the debug pass emits a
diagnostic: when the runtime string is absent, the line says the runtime
could not be determined and names the function; otherwise the line names
both the function and its original runtime string.  The pass is total (no
exception) and processes every handler: it emits exactly one line per
unsupported handler. -/
theorem debugLog_unsupported (hs : List FunctionInfo) :
    (∀ h ∈ hs, h.type = RuntimeType.UNSUPPORTED →
      (h.runtime = none →
        ("Unable to determine runtime for function " ++ h.name) ∈ debugLogHandlers hs) ∧
      (∀ r, h.runtime = some r →
        ("Unable to add Lambda Layers to function " ++ h.name ++ " with runtime " ++ r)
          ∈ debugLogHandlers hs)) ∧
    (debugLogHandlers hs).length =
      (hs.filter (fun h => decide (h.type = RuntimeType.UNSUPPORTED))).length := by
  constructor
  · intro h hmem htype
    constructor
    · intro hru
      exact List.mem_filterMap.2 ⟨h, hmem, by simp [htype, hru]⟩
    · intro r hru
      exact List.mem_filterMap.2 ⟨h, hmem, by simp [htype, hru]⟩
  · induction hs with
    | nil => rfl
    | cons a l ih =>
      by_cases ha : a.type = RuntimeType.UNSUPPORTED
      · cases hr : a.runtime <;>
          simp [debugLogHandlers, List.filterMap_cons, List.filter_cons, ha, hr] <;>
          simpa [debugLogHandlers] using ih
      · simp [debugLogHandlers, List.filterMap_cons, List.filter_cons, ha]
        simpa [debugLogHandlers] using ih

/-- Witness for C8: in a two-handler list, the unsupported handler with
runtime `go1.x` gets a diagnostic naming it and its runtime. -/
theorem debugLog_unsupported_witness :
    ("Unable to add Lambda Layers to function " ++ unsupportedInfo.name
      ++ " with runtime " ++ "go1.x")
      ∈ debugLogHandlers [supportedInfo, unsupportedInfo] :=
  ((debugLog_unsupported [supportedInfo, unsupportedInfo]).1 unsupportedInfo
    (by decide) rfl).2 "go1.x" rfl

end ServerlessPlugin
